import Mathlib

/-!
# Verification of the async Prometheus server interceptor

Shallow embedding of `src/grpc_prometheus_metrics/aio/prometheus_aio_server_interceptor.py`.

The interceptor wraps a gRPC method handler's behavior function with
metric-emitting instrumentation.  We model its per-call execution
(`new_behavior`) as a pure function producing the ordered list of metric
side effects (`Event`) together with the call's outcome (normal return,
return of a re-invocation, or a propagated Python exception), and model
the interception-time wrapping (`intercept_service`, `_wrap_rpc_behavior`)
over an explicit handler structure.
-/

namespace GrpcProm

/-- The canonical `grpc.StatusCode` enumeration. -/
inductive StatusCode
  | OK
  | CANCELLED
  | UNKNOWN
  | INVALID_ARGUMENT
  | DEADLINE_EXCEEDED
  | NOT_FOUND
  | ALREADY_EXISTS
  | PERMISSION_DENIED
  | RESOURCE_EXHAUSTED
  | FAILED_PRECONDITION
  | ABORTED
  | OUT_OF_RANGE
  | UNIMPLEMENTED
  | INTERNAL
  | UNAVAILABLE
  | DATA_LOSS
  | UNAUTHENTICATED
  deriving DecidableEq, Repr

/-- The integer component `x.value[0]` of each `grpc.StatusCode` member
(the wire status codes). -/
def StatusCode.value0 : StatusCode → Nat
  | .OK => 0
  | .CANCELLED => 1
  | .UNKNOWN => 2
  | .INVALID_ARGUMENT => 3
  | .DEADLINE_EXCEEDED => 4
  | .NOT_FOUND => 5
  | .ALREADY_EXISTS => 6
  | .PERMISSION_DENIED => 7
  | .RESOURCE_EXHAUSTED => 8
  | .FAILED_PRECONDITION => 9
  | .ABORTED => 10
  | .OUT_OF_RANGE => 11
  | .UNIMPLEMENTED => 12
  | .INTERNAL => 13
  | .UNAVAILABLE => 14
  | .DATA_LOSS => 15
  | .UNAUTHENTICATED => 16

/-- The Python enum member name `x.name`, used as the status label value. -/
def StatusCode.name : StatusCode → String
  | .OK => "OK"
  | .CANCELLED => "CANCELLED"
  | .UNKNOWN => "UNKNOWN"
  | .INVALID_ARGUMENT => "INVALID_ARGUMENT"
  | .DEADLINE_EXCEEDED => "DEADLINE_EXCEEDED"
  | .NOT_FOUND => "NOT_FOUND"
  | .ALREADY_EXISTS => "ALREADY_EXISTS"
  | .PERMISSION_DENIED => "PERMISSION_DENIED"
  | .RESOURCE_EXHAUSTED => "RESOURCE_EXHAUSTED"
  | .FAILED_PRECONDITION => "FAILED_PRECONDITION"
  | .ABORTED => "ABORTED"
  | .OUT_OF_RANGE => "OUT_OF_RANGE"
  | .UNIMPLEMENTED => "UNIMPLEMENTED"
  | .INTERNAL => "INTERNAL"
  | .UNAVAILABLE => "UNAVAILABLE"
  | .DATA_LOSS => "DATA_LOSS"
  | .UNAUTHENTICATED => "UNAUTHENTICATED"

/-- Iteration order of `grpc.StatusCode` (declaration order of the enum). -/
def StatusCode.all : List StatusCode :=
  [.OK, .CANCELLED, .UNKNOWN, .INVALID_ARGUMENT, .DEADLINE_EXCEEDED, .NOT_FOUND,
   .ALREADY_EXISTS, .PERMISSION_DENIED, .RESOURCE_EXHAUSTED, .FAILED_PRECONDITION,
   .ABORTED, .OUT_OF_RANGE, .UNIMPLEMENTED, .INTERNAL, .UNAVAILABLE, .DATA_LOSS,
   .UNAUTHENTICATED]

/-- A Python dictionary key as it may reach `self._code_to_status_mapping[...]`:
either an integer status identifier, or a `grpc.StatusCode` enum member passed
as-is (enum members are distinct hashable objects, never equal to their
integer component). -/
inductive DictKey
  | int (n : Nat)
  | status (s : StatusCode)
  deriving DecidableEq, Repr

/-- `self._code_to_status_mapping = {x.value[0]: x for x in grpc.StatusCode}`
(line 45): an association list keyed by the integer component of each member. -/
def code_to_status_mapping : List (DictKey × StatusCode) :=
  StatusCode.all.map (fun x => (DictKey.int x.value0, x))

/-- The Python exceptions that arise in the modelled paths. -/
inductive PyException
  | aioRpcError (code : StatusCode)
  | rpcError
  | keyError
  | valueError
  deriving DecidableEq, Repr

/-- `isinstance(e, grpc.RpcError)`: both the aio call error (which carries a
status code) and a plain `grpc.RpcError` match the inner `except` clause. -/
def PyException.isRpcError : PyException → Bool
  | .aioRpcError _ => true
  | .rpcError => true
  | .keyError => false
  | .valueError => false

/-- A Python `dict[key]` subscript on the mapping: a missing key raises
`KeyError` instead of returning a value. -/
def dict_getitem (k : DictKey) : Except PyException StatusCode :=
  match code_to_status_mapping.lookup k with
  | some s => .ok s
  | none => .error .keyError

/-- The servicer context state consulted by `_compute_status_code`:
`cancelled()` and `code()` (the latter may be absent). -/
structure ServicerContext where
  cancelled : Bool
  code : Option DictKey
  deriving DecidableEq, Repr

/-- `_compute_status_code` (lines 157-164): `CANCELLED` when the context is
cancelled, `OK` when no code was set, otherwise a dictionary lookup that may
raise `KeyError`. -/
def compute_status_code (servicer_context : ServicerContext) : Except PyException StatusCode :=
  if servicer_context.cancelled then .ok .CANCELLED
  else
    match servicer_context.code with
    | none => .ok .OK
    | some k => dict_getitem k

/-- `_compute_error_code` (lines 166-170): an error that is a `grpc.aio.Call`
carries its own code; any other exception resolves to `UNKNOWN`. -/
def compute_error_code : PyException → StatusCode
  | .aioRpcError c => c
  | _ => .UNKNOWN

/-- Identity of a counter metric series touched by the interceptor.  The
"handled" counter object is selected once at construction by the `legacy`
flag (`server_metrics.get_grpc_server_handled_counter(self._legacy, registry)`,
line 35), so its identity carries that flag. -/
inductive CounterId
  | grpc_server_started_counter
  | grpc_server_stream_msg_received
  | grpc_server_stream_msg_sent
  | grpc_server_handled_total (legacy : Bool)
  deriving DecidableEq, Repr

/-- Identity of a latency histogram series (lines 120 and 126). -/
inductive HistogramId
  | legacy_grpc_server_handled_latency_seconds
  | grpc_server_handled_histogram
  deriving DecidableEq, Repr

/-- The label set attached to every metric call. -/
structure Labels where
  grpc_type : String
  grpc_service : String
  grpc_method : String
  deriving DecidableEq, Repr

/-- One observable side effect of a call's execution, in program order:
a counter increment (with an optional extra status label key/value for the
handled counter), a histogram observation, a logged exception, or an
invocation of the wrapped behavior function (awaited first invocation at
line 87, un-awaited re-invocation at line 141). -/
inductive Event
  | inc (c : CounterId) (l : Labels) (statusLabel : Option (String × String))
  | observe (h : HistogramId) (l : Labels) (v : Int)
  | logError (e : PyException)
  | invokeBehavior
  | invokeBehaviorAgain
  deriving DecidableEq, Repr

/-- Modelled from the spec: `grpc_utils.get_method_type` is repository code
not under `src/`.  Spec section 6: the `rpc_type` label takes the values
UNARY, CLIENT_STREAMING, SERVER_STREAMING, BIDI_STREAMING derived from the
call shape. -/
def get_method_type (request_streaming response_streaming : Bool) : String :=
  if request_streaming && response_streaming then "BIDI_STREAMING"
  else if request_streaming then "CLIENT_STREAMING"
  else if response_streaming then "SERVER_STREAMING"
  else "UNARY"

/-- A lazily wrapped message iterator: the counter handle and labels captured
at wrap time, plus the underlying sequence of (not yet consumed) elements. -/
structure WrappedIterator where
  counter : CounterId
  labels : Labels
  elems : List Nat
  deriving DecidableEq, Repr

/-- Modelled from the spec: `grpc_utils.wrap_iterator_inc_counter` is
repository code not under `src/`.  Spec section 4.2: it produces a lazy
sequence that, for every element the consumer actually pulls, increments the
given counter once with the call's labels and yields the element unchanged,
in order, without buffering; nothing is counted at wrap time. -/
def wrap_iterator_inc_counter (iterator : List Nat) (counter : CounterId)
    (grpc_type grpc_service_name grpc_method_name : String) : WrappedIterator :=
  ⟨counter, ⟨grpc_type, grpc_service_name, grpc_method_name⟩, iterator⟩

/-- Consuming the first `n` elements of a wrapped iterator: each pulled
element produces one increment of the wrapped counter immediately before the
element is yielded.  Elements never pulled produce no increment. -/
def WrappedIterator.consume (w : WrappedIterator) (n : Nat) : List (Event × Nat) :=
  (w.elems.take n).map (fun x => (Event.inc w.counter w.labels none, x))

/-- A Python value as it flows through `new_behavior`: `None`, a single
response message, a raw response iterator, or a wrapped iterator. -/
inductive PyVal
  | none
  | msg (n : Nat)
  | iter (xs : List Nat)
  | wrapped (w : WrappedIterator)
  deriving DecidableEq, Repr

/-- The element list of a value used as an iterator.  A streaming handler
returns an iterator; wrapping any other value is modelled as the empty
sequence (in Python the failure would only surface lazily at first pull). -/
def PyVal.asIter : PyVal → List Nat
  | .iter xs => xs
  | .wrapped w => w.elems
  | _ => []

instance instDecEqExcept {ε α : Type} [DecidableEq ε] [DecidableEq α] :
    DecidableEq (Except ε α) := fun a b =>
  match a, b with
  | .ok x, .ok y =>
    if h : x = y then .isTrue (by rw [h])
    else .isFalse (by intro hh; injection hh; exact h (by assumption))
  | .ok _, .error _ => .isFalse (by intro hh; exact Except.noConfusion hh)
  | .error _, .ok _ => .isFalse (by intro hh; exact Except.noConfusion hh)
  | .error x, .error y =>
    if h : x = y then .isTrue (by rw [h])
    else .isFalse (by intro hh; injection hh; exact h (by assumption))

/-- The constructor-time configuration of `PromAioServerInterceptor`
(lines 24-41). -/
structure Config where
  enable_handling_time_histogram : Bool
  legacy : Bool
  skip_exceptions : Bool
  log_exceptions : Bool
  unary_only : Bool
  deriving DecidableEq, Repr

/-- How one execution of the wrapped behavior terminates: a normal return
value, a return of the result of re-invoking the original behavior
(line 141), or a propagated exception. -/
inductive Outcome
  | ret (v : PyVal)
  | retSecondInvocation (r : Except PyException PyVal)
  | raised (e : PyException)
  deriving DecidableEq, Repr

/-- One complete execution of `new_behavior`: the ordered side effects that
ran eagerly inside the wrapper, and the outcome delivered to the transport. -/
structure CallRun where
  events : List Event
  outcome : Outcome
  deriving DecidableEq, Repr

/-- `increase_grpc_server_handled_total_counter` (lines 172-188): both
branches increment the counter object fixed at construction; `legacy`
selects the status label key, `code` versus `grpc_code`. -/
def increase_grpc_server_handled_total_counter (legacy : Bool)
    (grpc_type grpc_service_name grpc_method_name grpc_code : String) : Event :=
  if legacy then
    Event.inc (CounterId.grpc_server_handled_total legacy)
      ⟨grpc_type, grpc_service_name, grpc_method_name⟩ (some ("code", grpc_code))
  else
    Event.inc (CounterId.grpc_server_handled_total legacy)
      ⟨grpc_type, grpc_service_name, grpc_method_name⟩ (some ("grpc_code", grpc_code))

/-- The inner `finally` block (lines 116-130): for a non-streaming response it
observes `max(now - start, 0)` into the legacy histogram in legacy mode, else
into the current histogram when the feature flag is set; it runs on both the
return and the raise path. -/
def latency_finally (cfg : Config) (response_streaming : Bool) (labels : Labels)
    (elapsed : Int) : List Event :=
  if !response_streaming then
    if cfg.legacy then
      [Event.observe .legacy_grpc_server_handled_latency_seconds labels (max elapsed 0)]
    else if cfg.enable_handling_time_histogram then
      [Event.observe .grpc_server_handled_histogram labels (max elapsed 0)]
    else []
  else []

/-- The outer `except Exception` clause (lines 131-142), reached by every
exception escaping the inner try statement — including a `grpc.RpcError`
re-raised by the inner `except` clause, since `RpcError` subclasses
`Exception`.  With `skip_exceptions` unset the exception is re-raised; with
it set the exception is optionally logged, then the wrapper returns `None`
when `response_or_iterator` is still `None` and otherwise returns the result
of invoking the behavior once more (un-awaited). -/
def except_outer (cfg : Config) (behavior : Nat → Except PyException PyVal)
    (response_or_iterator : PyVal) (events : List Event) (e : PyException) : CallRun :=
  if cfg.skip_exceptions then
    let logged := if cfg.log_exceptions then [Event.logError e] else []
    if response_or_iterator = PyVal.none then
      ⟨events ++ logged, Outcome.ret PyVal.none⟩
    else
      ⟨events ++ logged ++ [Event.invokeBehaviorAgain],
        Outcome.retSecondInvocation (behavior 1)⟩
  else
    ⟨events, Outcome.raised e⟩

/-- `new_behavior` (lines 65-142), the wrapper installed around the original
behavior function.  `behavior i` is the result of awaiting the behavior's
`i`-th invocation; `elapsed` is the timer delta read in the `finally` block.
Paths, in source order:
* streaming request: the request iterator is wrapped lazily, no eager event;
  non-streaming request: the started counter is incremented (lines 71-84);
* the behavior is awaited (line 87);
* on success with a streaming response the response iterator is wrapped and
  returned (lines 89-97, 106); with a non-streaming response the handled
  counter is incremented with the resolved status — whose dictionary lookup
  may itself raise — and the response returned (lines 99-106);
* a `grpc.RpcError` from the try block increments the handled counter with
  the resolved error code and is re-raised (lines 107-114);
* the `finally` latency observation runs on every non-streaming-response
  path (lines 116-130);
* every exception then reaches the outer handler (lines 131-142). -/
def new_behavior (cfg : Config) (grpc_service_name grpc_method_name : String)
    (request_streaming response_streaming : Bool)
    (behavior : Nat → Except PyException PyVal)
    (servicer_context : ServicerContext) (elapsed : Int) : CallRun :=
  let grpc_type := get_method_type request_streaming response_streaming
  let labels : Labels := ⟨grpc_type, grpc_service_name, grpc_method_name⟩
  let pre : List Event :=
    if request_streaming then []
    else [Event.inc .grpc_server_started_counter labels Option.none]
  let fin := latency_finally cfg response_streaming labels elapsed
  match behavior 0 with
  | .error e =>
    if e.isRpcError then
      except_outer cfg behavior PyVal.none
        (pre ++ [Event.invokeBehavior,
          increase_grpc_server_handled_total_counter cfg.legacy grpc_type
            grpc_service_name grpc_method_name (compute_error_code e).name] ++ fin) e
    else
      except_outer cfg behavior PyVal.none (pre ++ [Event.invokeBehavior] ++ fin) e
  | .ok v =>
    if response_streaming then
      ⟨pre ++ [Event.invokeBehavior] ++ fin,
        Outcome.ret (PyVal.wrapped (wrap_iterator_inc_counter v.asIter
          .grpc_server_stream_msg_sent grpc_type grpc_service_name grpc_method_name))⟩
    else
      match compute_status_code servicer_context with
      | .ok s =>
        ⟨pre ++ [Event.invokeBehavior,
          increase_grpc_server_handled_total_counter cfg.legacy grpc_type
            grpc_service_name grpc_method_name s.name] ++ fin,
          Outcome.ret v⟩
      | .error e =>
        except_outer cfg behavior v (pre ++ [Event.invokeBehavior] ++ fin) e

/-- `grpc.RpcMethodHandler`: the shape flags, the four shape-specific
behavior slots (only the slot matching the shape is populated), and the
serializer references passed through unchanged.  `β` is the type of a
behavior callable. -/
structure RpcMethodHandler (β : Type) where
  request_streaming : Bool
  response_streaming : Bool
  unary_unary : Option β
  unary_stream : Option β
  stream_unary : Option β
  stream_stream : Option β
  request_deserializer : Option Nat
  response_serializer : Option Nat
  deriving DecidableEq, Repr

/-- `grpc.unary_unary_rpc_method_handler`. -/
def unary_unary_rpc_method_handler (b : β)
    (request_deserializer response_serializer : Option Nat) : RpcMethodHandler β :=
  ⟨false, false, some b, Option.none, Option.none, Option.none,
    request_deserializer, response_serializer⟩

/-- `grpc.unary_stream_rpc_method_handler`. -/
def unary_stream_rpc_method_handler (b : β)
    (request_deserializer response_serializer : Option Nat) : RpcMethodHandler β :=
  ⟨false, true, Option.none, some b, Option.none, Option.none,
    request_deserializer, response_serializer⟩

/-- `grpc.stream_unary_rpc_method_handler`. -/
def stream_unary_rpc_method_handler (b : β)
    (request_deserializer response_serializer : Option Nat) : RpcMethodHandler β :=
  ⟨true, false, Option.none, Option.none, some b, Option.none,
    request_deserializer, response_serializer⟩

/-- `grpc.stream_stream_rpc_method_handler`. -/
def stream_stream_rpc_method_handler (b : β)
    (request_deserializer response_serializer : Option Nat) : RpcMethodHandler β :=
  ⟨true, true, Option.none, Option.none, Option.none, some b,
    request_deserializer, response_serializer⟩

/-- `_wrap_rpc_behavior` (lines 190-212): `None` propagates unchanged;
otherwise the behavior slot and handler factory matching the shape are
selected, and a new handler of the same shape is built around
`fn(behavior_fn, request_streaming, response_streaming)` with the original
serializers. -/
def wrap_rpc_behavior (handler : Option (RpcMethodHandler β))
    (fn : Option β → Bool → Bool → β) : Option (RpcMethodHandler β) :=
  match handler with
  | Option.none => Option.none
  | some h =>
    let pick : Option β × (β → Option Nat → Option Nat → RpcMethodHandler β) :=
      if h.request_streaming && h.response_streaming then
        (h.stream_stream, stream_stream_rpc_method_handler)
      else if h.request_streaming && !h.response_streaming then
        (h.stream_unary, stream_unary_rpc_method_handler)
      else if !h.request_streaming && h.response_streaming then
        (h.unary_stream, unary_stream_rpc_method_handler)
      else
        (h.unary_unary, unary_unary_rpc_method_handler)
    some (pick.2 (fn pick.1 h.request_streaming h.response_streaming)
      h.request_deserializer h.response_serializer)

/-- `intercept_service` (lines 146-155): with `unary_only` set, a present
handler whose shape streams on either side is returned as-is; every other
handler goes through `_wrap_rpc_behavior`.  The event component records the
metric activity performed at interception time, which is none — the source
makes no counter or histogram call on this path. -/
def intercept_service (cfg : Config) (handler : Option (RpcMethodHandler β))
    (metrics_wrapper : Option β → Bool → Bool → β) :
    List Event × Option (RpcMethodHandler β) :=
  if cfg.unary_only && handler.isSome &&
      handler.elim false (fun h => h.request_streaming || h.response_streaming) then
    ([], handler)
  else
    ([], wrap_rpc_behavior handler metrics_wrapper)

/-- Is this event an increment of the handled-total counter (either mode)? -/
def Event.isHandledInc : Event → Bool
  | .inc (.grpc_server_handled_total _) _ _ => true
  | _ => false

/-- Is this event an increment of the started counter? -/
def Event.isStartedInc : Event → Bool
  | .inc .grpc_server_started_counter _ _ => true
  | _ => false

/-- Is this event a histogram observation? -/
def Event.isObserve : Event → Bool
  | .observe _ _ _ => true
  | _ => false

/-- The handled-counter increments of a run, in order. -/
def handledEvents (evs : List Event) : List Event :=
  evs.filter Event.isHandledInc

/-- How many started-counter increments a run performed. -/
def startedCount (evs : List Event) : Nat :=
  (evs.filter Event.isStartedInc).length

/-- The histogram observations of a run, in order. -/
def observeEvents (evs : List Event) : List Event :=
  evs.filter Event.isObserve

/-- Does this event touch a legacy-named metric series (the legacy handled
counter or the legacy latency histogram)? -/
def Event.isLegacySeries : Event → Bool
  | .inc (.grpc_server_handled_total true) _ _ => true
  | .observe .legacy_grpc_server_handled_latency_seconds _ _ => true
  | _ => false

/-- Does this event touch a current-named metric series (the current handled
counter or the current latency histogram)? -/
def Event.isCurrentSeries : Event → Bool
  | .inc (.grpc_server_handled_total false) _ _ => true
  | .observe .grpc_server_handled_histogram _ _ => true
  | _ => false

/-- Erase which metric-series mode an event addressed: handled-counter
increments are renamed to the current-mode series and label key, histogram
observations to the current-mode histogram.  Two runs with equal stripped
events recorded the same values and differ only in series names and the
status label key. -/
def Event.stripMode : Event → Event
  | .inc (.grpc_server_handled_total _) l (some (_, code)) =>
      .inc (.grpc_server_handled_total false) l (some ("grpc_code", code))
  | .observe _ l v => .observe .grpc_server_handled_histogram l v
  | e => e

/-- Mapping a constant function over a list yields a replicated list. -/
theorem map_const_eq_replicate {α β : Type} (l : List α) (b : β) :
    (l.map fun _ => b) = List.replicate l.length b := by
  induction l with
  | nil => rfl
  | cons a t ih => simp [ih, List.replicate_succ]

/-- A successful association-list lookup returns a pair of the list. -/
theorem lookup_mem {α β : Type} [DecidableEq α] (l : List (α × β)) (k : α) (v : β)
    (h : l.lookup k = some v) : (k, v) ∈ l := by
  induction l with
  | nil => simp [List.lookup] at h
  | cons p t ih =>
    match p with
    | (a, b) =>
      rw [List.lookup] at h
      by_cases hk : k = a
      · subst hk; simp at h; subst h; exact List.mem_cons_self _ _
      · have hne : (k == a) = false := beq_false_of_ne hk
        rw [hne] at h
        exact List.mem_cons_of_mem _ (ih h)

/-- Every key of the code-to-status mapping is the integer component of the
status it maps to. -/
theorem mem_code_mapping {k : DictKey} {s : StatusCode}
    (h : (k, s) ∈ code_to_status_mapping) : k = DictKey.int s.value0 := by
  simp only [code_to_status_mapping, List.mem_map, Prod.mk.injEq] at h
  obtain ⟨x, _, h1, h2⟩ := h
  subst h2
  exact h1.symm

/-- C9: the code-to-status table is keyed by the integer component
`x.value[0]` of each canonical status, so the subscript in
`_compute_status_code` succeeds exactly when the context's code is one of
those integer identifiers (or the code is never consulted): a
`grpc.StatusCode` enumeration member passed as-is, or any other key, raises
`KeyError` instead of returning a status. -/
theorem C9_code_mapping_totality :
    (∀ s : StatusCode, dict_getitem (DictKey.status s) = .error .keyError)
    ∧ (∀ s : StatusCode, dict_getitem (DictKey.int s.value0) = .ok s)
    ∧ (∀ k : DictKey, (∃ s, dict_getitem k = .ok s) ↔ (∃ s : StatusCode, k = DictKey.int s.value0))
    ∧ (∀ k : DictKey, (∀ s : StatusCode, k ≠ DictKey.int s.value0) →
        compute_status_code ⟨false, some k⟩ = .error .keyError) := by
  refine ⟨?_, ?_, ?_, ?_⟩
  · intro s; cases s <;> rfl
  · intro s; cases s <;> rfl
  · intro k
    constructor
    · rintro ⟨s, hs⟩
      unfold dict_getitem at hs
      split at hs
      · rename_i t hl
        cases hs
        exact ⟨s, mem_code_mapping (lookup_mem _ _ _ hl)⟩
      · exact absurd hs (by simp)
    · rintro ⟨s, rfl⟩
      exact ⟨s, by cases s <;> rfl⟩
  · intro k hk
    show dict_getitem k = .error .keyError
    unfold dict_getitem
    split
    · rename_i t hl
      exact absurd (mem_code_mapping (lookup_mem _ _ _ hl)) (hk t)
    · rfl

/-- C9 witness: a `grpc.StatusCode` member used directly as the context's
code makes status resolution raise `KeyError`. -/
theorem C9_witness :
    compute_status_code ⟨false, some (DictKey.status StatusCode.OK)⟩ =
      .error .keyError :=
  C9_code_mapping_totality.2.2.2 _ (fun _ h => DictKey.noConfusion h)

/-- C6: with `unary_only` set and a handler whose shape streams on either
side, `intercept_service` returns the original handler itself, unwrapped
and uninstrumented, recording nothing. -/
theorem C6_unary_only_returns_original {β : Type} (cfg : Config)
    (h : RpcMethodHandler β) (metrics_wrapper : Option β → Bool → Bool → β)
    (huo : cfg.unary_only = true)
    (hstream : (h.request_streaming || h.response_streaming) = true) :
    intercept_service cfg (some h) metrics_wrapper = ([], some h) := by
  unfold intercept_service
  simp [huo, hstream, Option.elim]

/-- C6 witness: a bidi-streaming handler under `unary_only` comes back
unchanged. -/
theorem C6_witness :
    intercept_service (β := Nat) ⟨false, false, false, true, true⟩
        (some (stream_stream_rpc_method_handler 0 Option.none Option.none))
        (fun _ _ _ => 1) =
      ([], some (stream_stream_rpc_method_handler 0 Option.none Option.none)) :=
  C6_unary_only_returns_original ⟨false, false, false, true, true⟩
    (stream_stream_rpc_method_handler 0 Option.none Option.none)
    (fun _ _ _ => 1) rfl rfl

/-- C7: when the continuation yields no handler, `intercept_service` returns
that absence unchanged, fabricating no handler and recording no metric. -/
theorem C7_absent_handler_propagates {β : Type} (cfg : Config)
    (metrics_wrapper : Option β → Bool → Bool → β) :
    intercept_service cfg Option.none metrics_wrapper = ([], Option.none) := by
  unfold intercept_service
  simp [wrap_rpc_behavior]

/-- C1 counterexample: with `skip_exceptions` set, a transport-level call
error raised by the behavior is caught again by the outer exception handler
and is not re-raised to the transport layer. -/
theorem C1_counterexample :
    (new_behavior ⟨false, false, true, true, false⟩ "Greeter" "SayHello" false false
        (fun _ => .error (.aioRpcError .NOT_FOUND)) ⟨false, Option.none⟩ 0).outcome ≠
      Outcome.raised (.aioRpcError .NOT_FOUND) := by
  decide

/-- C1 (amended): a transport-level call error is recorded by exactly one
handled-counter increment carrying the error's own status code; it is then
re-raised to the transport layer when `skip_exceptions` is false, but when
`skip_exceptions` is true the outer exception handler catches the re-raised
error as well and suppresses it, returning `None`. -/
theorem C1_transport_error_policy (cfg : Config) (svc mth : String)
    (reqS respS : Bool) (behavior : Nat → Except PyException PyVal)
    (ctx : ServicerContext) (elapsed : Int) (c : StatusCode)
    (hb : behavior 0 = .error (.aioRpcError c)) :
    handledEvents (new_behavior cfg svc mth reqS respS behavior ctx elapsed).events =
      [increase_grpc_server_handled_total_counter cfg.legacy
        (get_method_type reqS respS) svc mth c.name]
    ∧ (cfg.skip_exceptions = false →
        (new_behavior cfg svc mth reqS respS behavior ctx elapsed).outcome =
          Outcome.raised (.aioRpcError c))
    ∧ (cfg.skip_exceptions = true →
        (new_behavior cfg svc mth reqS respS behavior ctx elapsed).outcome =
          Outcome.ret PyVal.none) := by
  obtain ⟨eh, lg, sk, lo, uo⟩ := cfg
  cases eh <;> cases lg <;> cases sk <;> cases lo <;> cases reqS <;> cases respS <;>
    simp [new_behavior, hb, except_outer, latency_finally, handledEvents,
      increase_grpc_server_handled_total_counter, Event.isHandledInc,
      PyException.isRpcError, compute_error_code, get_method_type, List.filter]

/-- C1 witness: with default configuration a `NOT_FOUND` transport error is
recorded once and re-raised. -/
theorem C1_witness :
    handledEvents (new_behavior ⟨false, false, false, true, false⟩ "Greeter" "SayHello"
        false false (fun _ => .error (.aioRpcError .NOT_FOUND)) ⟨false, Option.none⟩ 0).events =
      [increase_grpc_server_handled_total_counter false (get_method_type false false)
        "Greeter" "SayHello" StatusCode.NOT_FOUND.name]
    ∧ (new_behavior ⟨false, false, false, true, false⟩ "Greeter" "SayHello"
        false false (fun _ => .error (.aioRpcError .NOT_FOUND)) ⟨false, Option.none⟩ 0).outcome =
      Outcome.raised (.aioRpcError .NOT_FOUND) := by
  have h := C1_transport_error_policy ⟨false, false, false, true, false⟩ "Greeter" "SayHello"
    false false (fun _ => .error (.aioRpcError .NOT_FOUND)) ⟨false, Option.none⟩ 0 .NOT_FOUND rfl
  exact ⟨h.1, h.2.1 rfl⟩

/-- C10 counterexample: with `skip_exceptions` set, a transport-level error
raised while awaiting a streaming-response behavior is not re-raised. -/
theorem C10_counterexample :
    (new_behavior ⟨false, false, true, true, false⟩ "Greeter" "ListHello" false true
        (fun _ => .error (.aioRpcError .UNAVAILABLE)) ⟨false, Option.none⟩ 0).outcome ≠
      Outcome.raised (.aioRpcError .UNAVAILABLE) := by
  decide

/-- C10 (amended): when a streaming-response behavior raises a
transport-level error while being awaited, the handled counter is
incremented exactly once with the resolved error code and no latency is
observed; the error is re-raised when `skip_exceptions` is false, and
suppressed with a `None` return when it is true. -/
theorem C10_streaming_transport_error (cfg : Config) (svc mth : String)
    (reqS : Bool) (behavior : Nat → Except PyException PyVal)
    (ctx : ServicerContext) (elapsed : Int) (c : StatusCode)
    (hb : behavior 0 = .error (.aioRpcError c)) :
    handledEvents (new_behavior cfg svc mth reqS true behavior ctx elapsed).events =
      [increase_grpc_server_handled_total_counter cfg.legacy
        (get_method_type reqS true) svc mth c.name]
    ∧ observeEvents (new_behavior cfg svc mth reqS true behavior ctx elapsed).events = []
    ∧ (cfg.skip_exceptions = false →
        (new_behavior cfg svc mth reqS true behavior ctx elapsed).outcome =
          Outcome.raised (.aioRpcError c))
    ∧ (cfg.skip_exceptions = true →
        (new_behavior cfg svc mth reqS true behavior ctx elapsed).outcome =
          Outcome.ret PyVal.none) := by
  obtain ⟨eh, lg, sk, lo, uo⟩ := cfg
  cases eh <;> cases lg <;> cases sk <;> cases lo <;> cases reqS <;>
    simp [new_behavior, hb, except_outer, latency_finally, handledEvents,
      observeEvents, increase_grpc_server_handled_total_counter, Event.isHandledInc,
      Event.isObserve, PyException.isRpcError, compute_error_code, get_method_type,
      List.filter]

/-- C10 witness: an `UNAVAILABLE` transport error on a server-streaming call
under default configuration is counted once, observes no latency, and is
re-raised. -/
theorem C10_witness :
    handledEvents (new_behavior ⟨false, false, false, true, false⟩ "Greeter" "ListHello"
        false true (fun _ => .error (.aioRpcError .UNAVAILABLE)) ⟨false, Option.none⟩ 0).events =
      [increase_grpc_server_handled_total_counter false (get_method_type false true)
        "Greeter" "ListHello" StatusCode.UNAVAILABLE.name]
    ∧ observeEvents (new_behavior ⟨false, false, false, true, false⟩ "Greeter" "ListHello"
        false true (fun _ => .error (.aioRpcError .UNAVAILABLE)) ⟨false, Option.none⟩ 0).events = []
    ∧ (new_behavior ⟨false, false, false, true, false⟩ "Greeter" "ListHello"
        false true (fun _ => .error (.aioRpcError .UNAVAILABLE)) ⟨false, Option.none⟩ 0).outcome =
      Outcome.raised (.aioRpcError .UNAVAILABLE) := by
  have h := C10_streaming_transport_error ⟨false, false, false, true, false⟩ "Greeter"
    "ListHello" false (fun _ => .error (.aioRpcError .UNAVAILABLE)) ⟨false, Option.none⟩ 0
    .UNAVAILABLE rfl
  exact ⟨h.1, h.2.1, h.2.2.1 rfl⟩

/-- C2 counterexample: with `skip_exceptions` set and a non-transport
exception raised before any response was produced, the wrapper returns
`None` rather than re-invoking the original behavior. -/
theorem C2_counterexample :
    (new_behavior ⟨false, false, true, true, false⟩ "Greeter" "SayHello" false false
        (fun i => if i = 0 then .error .valueError else .ok (.msg 42))
        ⟨false, Option.none⟩ 0).outcome = Outcome.ret PyVal.none
    ∧ (new_behavior ⟨false, false, true, true, false⟩ "Greeter" "SayHello" false false
        (fun i => if i = 0 then .error .valueError else .ok (.msg 42))
        ⟨false, Option.none⟩ 0).outcome ≠
      Outcome.retSecondInvocation (.ok (.msg 42))
    ∧ Event.invokeBehaviorAgain ∉
      (new_behavior ⟨false, false, true, true, false⟩ "Greeter" "SayHello" false false
        (fun i => if i = 0 then .error .valueError else .ok (.msg 42))
        ⟨false, Option.none⟩ 0).events := by
  refine ⟨by decide, by decide, by decide⟩

/-- C2 (amended): a non-transport exception is re-raised unchanged when
`skip_exceptions` is false; when `skip_exceptions` is true the wrapper
returns `None` when no response has been produced yet, and otherwise
re-invokes the original unwrapped behavior once more and returns that
invocation's result instead of the failure. -/
theorem C2_exception_policy (cfg : Config) (svc mth : String) (reqS respS : Bool)
    (behavior : Nat → Except PyException PyVal) (ctx : ServicerContext) (elapsed : Int) :
    (∀ e : PyException, behavior 0 = .error e → e.isRpcError = false →
      ((cfg.skip_exceptions = false →
          (new_behavior cfg svc mth reqS respS behavior ctx elapsed).outcome =
            Outcome.raised e)
        ∧ (cfg.skip_exceptions = true →
          (new_behavior cfg svc mth reqS respS behavior ctx elapsed).outcome =
            Outcome.ret PyVal.none)))
    ∧ (∀ (v : PyVal) (e : PyException), behavior 0 = .ok v →
        compute_status_code ctx = .error e →
      ((cfg.skip_exceptions = false →
          (new_behavior cfg svc mth reqS false behavior ctx elapsed).outcome =
            Outcome.raised e)
        ∧ (cfg.skip_exceptions = true →
          (new_behavior cfg svc mth reqS false behavior ctx elapsed).outcome =
            (if v = PyVal.none then Outcome.ret PyVal.none
             else Outcome.retSecondInvocation (behavior 1))))) := by
  obtain ⟨eh, lg, sk, lo, uo⟩ := cfg
  constructor
  · intro e hb hrpc
    cases eh <;> cases lg <;> cases sk <;> cases lo <;> cases reqS <;> cases respS <;>
      simp [new_behavior, hb, hrpc, except_outer, latency_finally, get_method_type]
  · intro v e hb hcs
    by_cases hv : v = PyVal.none <;>
      cases eh <;> cases lg <;> cases sk <;> cases lo <;> cases reqS <;>
        simp [new_behavior, hb, hcs, hv, except_outer, latency_finally, get_method_type]

/-- C2 witness: an instrumentation failure after a successful unary response
under `skip_exceptions` makes the wrapper re-invoke the behavior and return
that second result. -/
theorem C2_witness :
    (new_behavior ⟨false, false, true, true, false⟩ "Greeter" "SayHello" false false
        (fun i => if i = 0 then .ok (.msg 7) else .ok (.msg 42))
        ⟨false, some (DictKey.status StatusCode.OK)⟩ 0).outcome =
      Outcome.retSecondInvocation (.ok (.msg 42)) := by
  have h := (C2_exception_policy ⟨false, false, true, true, false⟩ "Greeter" "SayHello"
    false false (fun i => if i = 0 then .ok (.msg 7) else .ok (.msg 42))
    ⟨false, some (DictKey.status StatusCode.OK)⟩ 0).2 (.msg 7) .keyError rfl rfl
  simpa using h.2 rfl

/-- C3 counterexample: a non-streaming call whose behavior raises a
non-`RpcError` exception produces zero handled-counter increments, not the
one `UNKNOWN`-labeled increment the claim requires. -/
theorem C3_counterexample :
    handledEvents (new_behavior ⟨false, false, false, true, false⟩ "Greeter" "SayHello"
        false false (fun _ => .error .valueError) ⟨false, Option.none⟩ 0).events = []
    ∧ (handledEvents (new_behavior ⟨false, false, false, true, false⟩ "Greeter" "SayHello"
        false false (fun _ => .error .valueError) ⟨false, Option.none⟩ 0).events).length ≠ 1 := by
  refine ⟨by decide, by decide⟩

/-- C3 (amended): for a non-streaming response, exactly one handled-counter
increment occurs when the behavior returns and the status resolves (labeled
`CANCELLED` under cancellation, `OK` when no code is set, else the mapped
code) and when the behavior raises a `grpc.RpcError` (labeled with the
error's own code if it carries one, else `UNKNOWN`); a non-`RpcError`
exception from the behavior, or a failing status lookup, produces zero
handled-counter increments. -/
theorem C3_handled_counter_cases (cfg : Config) (svc mth : String) (reqS : Bool)
    (behavior : Nat → Except PyException PyVal) (ctx : ServicerContext) (elapsed : Int) :
    (∀ (v : PyVal) (s : StatusCode), behavior 0 = .ok v → compute_status_code ctx = .ok s →
      handledEvents (new_behavior cfg svc mth reqS false behavior ctx elapsed).events =
        [increase_grpc_server_handled_total_counter cfg.legacy
          (get_method_type reqS false) svc mth s.name])
    ∧ (∀ e : PyException, behavior 0 = .error e → e.isRpcError = true →
      handledEvents (new_behavior cfg svc mth reqS false behavior ctx elapsed).events =
        [increase_grpc_server_handled_total_counter cfg.legacy
          (get_method_type reqS false) svc mth (compute_error_code e).name])
    ∧ (∀ e : PyException, behavior 0 = .error e → e.isRpcError = false →
      handledEvents (new_behavior cfg svc mth reqS false behavior ctx elapsed).events = [])
    ∧ (∀ (v : PyVal) (e : PyException), behavior 0 = .ok v →
        compute_status_code ctx = .error e →
      handledEvents (new_behavior cfg svc mth reqS false behavior ctx elapsed).events = [])
    ∧ (∀ k : Option DictKey, compute_status_code ⟨true, k⟩ = .ok .CANCELLED)
    ∧ compute_status_code ⟨false, Option.none⟩ = .ok .OK := by
  obtain ⟨eh, lg, sk, lo, uo⟩ := cfg
  refine ⟨?_, ?_, ?_, ?_, fun k => rfl, rfl⟩
  · intro v s hb hcs
    cases eh <;> cases lg <;> cases sk <;> cases lo <;> cases reqS <;>
      simp [new_behavior, hb, hcs, latency_finally, handledEvents,
        increase_grpc_server_handled_total_counter, Event.isHandledInc,
        get_method_type, List.filter]
  · intro e hb hrpc
    cases eh <;> cases lg <;> cases sk <;> cases lo <;> cases reqS <;>
      simp [new_behavior, hb, hrpc, except_outer, latency_finally, handledEvents,
        increase_grpc_server_handled_total_counter, Event.isHandledInc,
        get_method_type, List.filter]
  · intro e hb hrpc
    cases eh <;> cases lg <;> cases sk <;> cases lo <;> cases reqS <;>
      simp [new_behavior, hb, hrpc, except_outer, latency_finally, handledEvents,
        Event.isHandledInc, get_method_type, List.filter]
  · intro v e hb hcs
    by_cases hv : v = PyVal.none <;>
      cases eh <;> cases lg <;> cases sk <;> cases lo <;> cases reqS <;>
        simp [new_behavior, hb, hcs, hv, except_outer, latency_finally, handledEvents,
          Event.isHandledInc, get_method_type, List.filter]

/-- C3 witness: a successful unary call with no code set is counted exactly
once with an `OK` label. -/
theorem C3_witness :
    handledEvents (new_behavior ⟨false, false, false, true, false⟩ "Greeter" "SayHello"
        false false (fun _ => .ok (.msg 7)) ⟨false, Option.none⟩ 0).events =
      [increase_grpc_server_handled_total_counter false (get_method_type false false)
        "Greeter" "SayHello" StatusCode.OK.name] :=
  (C3_handled_counter_cases ⟨false, false, false, true, false⟩ "Greeter" "SayHello"
    false (fun _ => .ok (.msg 7)) ⟨false, Option.none⟩ 0).1 (.msg 7) .OK rfl rfl

/-- C4: a non-streaming request increments the started counter exactly once,
before the behavior is invoked; a streaming request increments it zero times,
and the wrapped request iterator increments the received counter exactly once
per element the consumer pulls, yielding the elements unchanged. -/
theorem C4_started_and_received (cfg : Config) (svc mth : String) (respS : Bool)
    (behavior : Nat → Except PyException PyVal) (ctx : ServicerContext) (elapsed : Int) :
    (new_behavior cfg svc mth false respS behavior ctx elapsed).events.take 2 =
      [Event.inc .grpc_server_started_counter ⟨get_method_type false respS, svc, mth⟩
        Option.none, Event.invokeBehavior]
    ∧ startedCount (new_behavior cfg svc mth false respS behavior ctx elapsed).events = 1
    ∧ startedCount (new_behavior cfg svc mth true respS behavior ctx elapsed).events = 0
    ∧ (∀ (it : List Nat) (n : Nat) (gt : String), n ≤ it.length →
        ((wrap_iterator_inc_counter it .grpc_server_stream_msg_received gt svc mth).consume
            n).map Prod.fst =
          List.replicate n (Event.inc .grpc_server_stream_msg_received ⟨gt, svc, mth⟩
            Option.none)
        ∧ ((wrap_iterator_inc_counter it .grpc_server_stream_msg_received gt svc mth).consume
            n).map Prod.snd = it.take n) := by
  obtain ⟨eh, lg, sk, lo, uo⟩ := cfg
  refine ⟨?_, ?_, ?_, ?_⟩
  · cases hb : behavior 0 with
    | error e =>
      cases e <;> cases eh <;> cases lg <;> cases sk <;> cases lo <;> cases respS <;>
        simp [new_behavior, hb, except_outer, latency_finally, get_method_type,
          PyException.isRpcError, compute_error_code,
          increase_grpc_server_handled_total_counter]
    | ok v =>
      cases hcs : compute_status_code ctx with
      | ok s =>
        cases eh <;> cases lg <;> cases sk <;> cases lo <;> cases respS <;>
          simp [new_behavior, hb, hcs, latency_finally, get_method_type,
            increase_grpc_server_handled_total_counter]
      | error e2 =>
        by_cases hv : v = PyVal.none <;>
          cases eh <;> cases lg <;> cases sk <;> cases lo <;> cases respS <;>
            simp [new_behavior, hb, hcs, hv, except_outer, latency_finally,
              get_method_type, increase_grpc_server_handled_total_counter]
  · cases hb : behavior 0 with
    | error e =>
      cases e <;> cases eh <;> cases lg <;> cases sk <;> cases lo <;> cases respS <;>
        simp [new_behavior, hb, except_outer, latency_finally, get_method_type,
          PyException.isRpcError, compute_error_code, startedCount, Event.isStartedInc,
          increase_grpc_server_handled_total_counter, List.filter]
    | ok v =>
      cases hcs : compute_status_code ctx with
      | ok s =>
        cases eh <;> cases lg <;> cases sk <;> cases lo <;> cases respS <;>
          simp [new_behavior, hb, hcs, latency_finally, get_method_type, startedCount,
            Event.isStartedInc, increase_grpc_server_handled_total_counter, List.filter]
      | error e2 =>
        by_cases hv : v = PyVal.none <;>
          cases eh <;> cases lg <;> cases sk <;> cases lo <;> cases respS <;>
            simp [new_behavior, hb, hcs, hv, except_outer, latency_finally,
              get_method_type, startedCount, Event.isStartedInc,
              increase_grpc_server_handled_total_counter, List.filter]
  · cases hb : behavior 0 with
    | error e =>
      cases e <;> cases eh <;> cases lg <;> cases sk <;> cases lo <;> cases respS <;>
        simp [new_behavior, hb, except_outer, latency_finally, get_method_type,
          PyException.isRpcError, compute_error_code, startedCount, Event.isStartedInc,
          increase_grpc_server_handled_total_counter, List.filter]
    | ok v =>
      cases hcs : compute_status_code ctx with
      | ok s =>
        cases eh <;> cases lg <;> cases sk <;> cases lo <;> cases respS <;>
          simp [new_behavior, hb, hcs, latency_finally, get_method_type, startedCount,
            Event.isStartedInc, increase_grpc_server_handled_total_counter, List.filter]
      | error e2 =>
        by_cases hv : v = PyVal.none <;>
          cases eh <;> cases lg <;> cases sk <;> cases lo <;> cases respS <;>
            simp [new_behavior, hb, hcs, hv, except_outer, latency_finally,
              get_method_type, startedCount, Event.isStartedInc,
              increase_grpc_server_handled_total_counter, List.filter]
  · intro it n gt hn
    constructor
    · have h1 : ((wrap_iterator_inc_counter it .grpc_server_stream_msg_received gt svc
          mth).consume n).map Prod.fst =
          ((it.take n).map fun _ => Event.inc .grpc_server_stream_msg_received
            ⟨gt, svc, mth⟩ Option.none) := by
        simp [wrap_iterator_inc_counter, WrappedIterator.consume, List.map_map,
          Function.comp]
      rw [h1, map_const_eq_replicate, List.length_take, Nat.min_eq_left hn]
    · simp [wrap_iterator_inc_counter, WrappedIterator.consume, List.map_map,
        Function.comp]

/-- C4 witness: on a concrete unary call the started counter fires once
before the invocation, and pulling two of three elements from a wrapped
request iterator counts exactly two received messages. -/
theorem C4_witness :
    startedCount (new_behavior ⟨false, false, false, true, false⟩ "Greeter" "SayHello"
      false false (fun _ => .ok (.msg 7)) ⟨false, Option.none⟩ 0).events = 1
    ∧ ((wrap_iterator_inc_counter [5, 6, 7] .grpc_server_stream_msg_received
        "CLIENT_STREAMING" "Greeter" "SayHello").consume 2).map Prod.fst =
      List.replicate 2 (Event.inc .grpc_server_stream_msg_received
        ⟨"CLIENT_STREAMING", "Greeter", "SayHello"⟩ Option.none) := by
  have h := C4_started_and_received ⟨false, false, false, true, false⟩ "Greeter" "SayHello"
    false (fun _ => .ok (.msg 7)) ⟨false, Option.none⟩ 0
  exact ⟨h.2.1, (h.2.2.2 [5, 6, 7] 2 "CLIENT_STREAMING" (by decide)).1⟩

/-- C5: a successful streaming-response call records no handled-counter
increment and no latency observation; it returns the response iterator
wrapped so that consuming its first n elements increments the sent counter
exactly n times, one increment per element in sequence order, yielding the
elements unchanged. -/
theorem C5_streaming_response_consumption (cfg : Config) (svc mth : String)
    (reqS : Bool) (behavior : Nat → Except PyException PyVal)
    (ctx : ServicerContext) (elapsed : Int) (xs : List Nat)
    (hb : behavior 0 = .ok (.iter xs)) :
    handledEvents (new_behavior cfg svc mth reqS true behavior ctx elapsed).events = []
    ∧ observeEvents (new_behavior cfg svc mth reqS true behavior ctx elapsed).events = []
    ∧ (new_behavior cfg svc mth reqS true behavior ctx elapsed).outcome =
        Outcome.ret (.wrapped (wrap_iterator_inc_counter xs .grpc_server_stream_msg_sent
          (get_method_type reqS true) svc mth))
    ∧ (∀ n : Nat, n ≤ xs.length →
        ((wrap_iterator_inc_counter xs .grpc_server_stream_msg_sent
            (get_method_type reqS true) svc mth).consume n).map Prod.fst =
          List.replicate n (Event.inc .grpc_server_stream_msg_sent
            ⟨get_method_type reqS true, svc, mth⟩ Option.none)
        ∧ ((wrap_iterator_inc_counter xs .grpc_server_stream_msg_sent
            (get_method_type reqS true) svc mth).consume n).map Prod.snd = xs.take n) := by
  obtain ⟨eh, lg, sk, lo, uo⟩ := cfg
  refine ⟨?_, ?_, ?_, ?_⟩
  · cases eh <;> cases lg <;> cases sk <;> cases lo <;> cases reqS <;>
      simp [new_behavior, hb, latency_finally, handledEvents, Event.isHandledInc,
        get_method_type, List.filter]
  · cases eh <;> cases lg <;> cases sk <;> cases lo <;> cases reqS <;>
      simp [new_behavior, hb, latency_finally, observeEvents, Event.isObserve,
        get_method_type, List.filter]
  · cases eh <;> cases lg <;> cases sk <;> cases lo <;> cases reqS <;>
      simp [new_behavior, hb, latency_finally, get_method_type, PyVal.asIter]
  · intro n hn
    constructor
    · have h1 : ((wrap_iterator_inc_counter xs .grpc_server_stream_msg_sent
          (get_method_type reqS true) svc mth).consume n).map Prod.fst =
          ((xs.take n).map fun _ => Event.inc .grpc_server_stream_msg_sent
            ⟨get_method_type reqS true, svc, mth⟩ Option.none) := by
        simp [wrap_iterator_inc_counter, WrappedIterator.consume, List.map_map,
          Function.comp]
      rw [h1, map_const_eq_replicate, List.length_take, Nat.min_eq_left hn]
    · simp [wrap_iterator_inc_counter, WrappedIterator.consume, List.map_map,
        Function.comp]

/-- C5 witness: a server-streaming call yielding three responses, all
consumed, counts three sent messages and nothing else. -/
theorem C5_witness :
    handledEvents (new_behavior ⟨true, false, false, true, false⟩ "Greeter" "ListHello"
      false true (fun _ => .ok (.iter [1, 2, 3])) ⟨false, Option.none⟩ 0).events = []
    ∧ observeEvents (new_behavior ⟨true, false, false, true, false⟩ "Greeter" "ListHello"
      false true (fun _ => .ok (.iter [1, 2, 3])) ⟨false, Option.none⟩ 0).events = []
    ∧ ((wrap_iterator_inc_counter [1, 2, 3] .grpc_server_stream_msg_sent
        (get_method_type false true) "Greeter" "ListHello").consume 3).map Prod.fst =
      List.replicate 3 (Event.inc .grpc_server_stream_msg_sent
        ⟨get_method_type false true, "Greeter", "ListHello"⟩ Option.none) := by
  have h := C5_streaming_response_consumption ⟨true, false, false, true, false⟩ "Greeter"
    "ListHello" false (fun _ => .ok (.iter [1, 2, 3])) ⟨false, Option.none⟩ 0 [1, 2, 3] rfl
  exact ⟨h.1, h.2.1, (h.2.2.2 3 (by decide)).1⟩

/-- C8 counterexample: with the handling-time histogram feature disabled,
switching the `legacy` flag does not merely rename the series — the legacy
run records a latency observation while the current run records none. -/
theorem C8_counterexample :
    ¬ ((new_behavior ⟨false, true, false, true, false⟩ "Greeter" "SayHello" false false
          (fun _ => .ok (.msg 7)) ⟨false, Option.none⟩ 5).events.map Event.stripMode =
        (new_behavior ⟨false, false, false, true, false⟩ "Greeter" "SayHello" false false
          (fun _ => .ok (.msg 7)) ⟨false, Option.none⟩ 5).events.map Event.stripMode) := by
  decide

set_option maxHeartbeats 2000000 in
/-- C8 (amended): a single run only ever touches the metric series of its
own mode — legacy mode never records to a current-named series and vice
versa; and provided the current-mode run has the handling-time histogram
enabled, switching the `legacy` flag changes only the series names and the
status label key, not the recorded values or the call outcome. -/
theorem C8_mode_exclusive_and_value_preserving (e1 sk lo uo1 uo2 : Bool)
    (cfg : Config) (svc mth : String) (reqS respS : Bool)
    (behavior : Nat → Except PyException PyVal) (ctx : ServicerContext) (elapsed : Int) :
    ((cfg.legacy = true →
        (new_behavior cfg svc mth reqS respS behavior ctx elapsed).events.filter
          Event.isCurrentSeries = [])
      ∧ (cfg.legacy = false →
        (new_behavior cfg svc mth reqS respS behavior ctx elapsed).events.filter
          Event.isLegacySeries = []))
    ∧ (new_behavior ⟨e1, true, sk, lo, uo1⟩ svc mth reqS respS behavior ctx
        elapsed).events.map Event.stripMode =
      (new_behavior ⟨true, false, sk, lo, uo2⟩ svc mth reqS respS behavior ctx
        elapsed).events.map Event.stripMode
    ∧ (new_behavior ⟨e1, true, sk, lo, uo1⟩ svc mth reqS respS behavior ctx
        elapsed).outcome =
      (new_behavior ⟨true, false, sk, lo, uo2⟩ svc mth reqS respS behavior ctx
        elapsed).outcome := by
  obtain ⟨eh2, lg, sk2, lo2, uo3⟩ := cfg
  refine ⟨⟨?_, ?_⟩, ?_, ?_⟩
  · intro hlg
    subst hlg
    cases hb : behavior 0 with
    | error e =>
      cases e <;> cases eh2 <;> cases sk2 <;> cases lo2 <;> cases reqS <;> cases respS <;>
        simp [new_behavior, hb, except_outer, latency_finally, get_method_type,
          PyException.isRpcError, compute_error_code, Event.isCurrentSeries,
          increase_grpc_server_handled_total_counter, List.filter]
    | ok v =>
      cases hcs : compute_status_code ctx with
      | ok s =>
        cases eh2 <;> cases sk2 <;> cases lo2 <;> cases reqS <;> cases respS <;>
          simp [new_behavior, hb, hcs, latency_finally, get_method_type,
            Event.isCurrentSeries, increase_grpc_server_handled_total_counter,
            List.filter]
      | error e2 =>
        by_cases hv : v = PyVal.none <;>
          cases eh2 <;> cases sk2 <;> cases lo2 <;> cases reqS <;> cases respS <;>
            simp [new_behavior, hb, hcs, hv, except_outer, latency_finally,
              get_method_type, Event.isCurrentSeries, List.filter]
  · intro hlg
    subst hlg
    cases hb : behavior 0 with
    | error e =>
      cases e <;> cases eh2 <;> cases sk2 <;> cases lo2 <;> cases reqS <;> cases respS <;>
        simp [new_behavior, hb, except_outer, latency_finally, get_method_type,
          PyException.isRpcError, compute_error_code, Event.isLegacySeries,
          increase_grpc_server_handled_total_counter, List.filter]
    | ok v =>
      cases hcs : compute_status_code ctx with
      | ok s =>
        cases eh2 <;> cases sk2 <;> cases lo2 <;> cases reqS <;> cases respS <;>
          simp [new_behavior, hb, hcs, latency_finally, get_method_type,
            Event.isLegacySeries, increase_grpc_server_handled_total_counter,
            List.filter]
      | error e2 =>
        by_cases hv : v = PyVal.none <;>
          cases eh2 <;> cases sk2 <;> cases lo2 <;> cases reqS <;> cases respS <;>
            simp [new_behavior, hb, hcs, hv, except_outer, latency_finally,
              get_method_type, Event.isLegacySeries, List.filter]
  · cases hb : behavior 0 with
    | error e =>
      cases e <;> cases e1 <;> cases sk <;> cases lo <;> cases reqS <;> cases respS <;>
        simp [new_behavior, hb, except_outer, latency_finally, get_method_type,
          PyException.isRpcError, compute_error_code, Event.stripMode,
          increase_grpc_server_handled_total_counter]
    | ok v =>
      cases hcs : compute_status_code ctx with
      | ok s =>
        cases e1 <;> cases sk <;> cases lo <;> cases reqS <;> cases respS <;>
          simp [new_behavior, hb, hcs, latency_finally, get_method_type,
            Event.stripMode, increase_grpc_server_handled_total_counter]
      | error e2 =>
        by_cases hv : v = PyVal.none <;>
          cases e1 <;> cases sk <;> cases lo <;> cases reqS <;> cases respS <;>
            simp [new_behavior, hb, hcs, hv, except_outer, latency_finally,
              get_method_type, Event.stripMode]
  · cases hb : behavior 0 with
    | error e =>
      cases e <;> cases e1 <;> cases sk <;> cases lo <;> cases reqS <;> cases respS <;>
        simp [new_behavior, hb, except_outer, latency_finally, get_method_type,
          PyException.isRpcError, compute_error_code,
          increase_grpc_server_handled_total_counter]
    | ok v =>
      cases hcs : compute_status_code ctx with
      | ok s =>
        cases e1 <;> cases sk <;> cases lo <;> cases reqS <;> cases respS <;>
          simp [new_behavior, hb, hcs, latency_finally, get_method_type,
            increase_grpc_server_handled_total_counter]
      | error e2 =>
        by_cases hv : v = PyVal.none <;>
          cases e1 <;> cases sk <;> cases lo <;> cases reqS <;> cases respS <;>
            simp [new_behavior, hb, hcs, hv, except_outer, latency_finally,
              get_method_type]

/-- C8 witness: a legacy-mode run touches no current-named series, and with
the histogram enabled a legacy run and a current run record the same values
under stripped series names. -/
theorem C8_witness :
    (new_behavior ⟨true, true, false, true, false⟩ "Greeter" "SayHello" false false
        (fun _ => .ok (.msg 7)) ⟨false, Option.none⟩ 5).events.filter
      Event.isCurrentSeries = []
    ∧ (new_behavior ⟨false, true, false, true, false⟩ "Greeter" "SayHello" false false
        (fun _ => .ok (.msg 7)) ⟨false, Option.none⟩ 5).events.map Event.stripMode =
      (new_behavior ⟨true, false, false, true, false⟩ "Greeter" "SayHello" false false
        (fun _ => .ok (.msg 7)) ⟨false, Option.none⟩ 5).events.map Event.stripMode := by
  have h1 := C8_mode_exclusive_and_value_preserving false false true false false
    ⟨true, true, false, true, false⟩ "Greeter" "SayHello" false false
    (fun _ => .ok (.msg 7)) ⟨false, Option.none⟩ 5
  exact ⟨h1.1.1 rfl, h1.2.1⟩

end GrpcProm
